import Mathlib

/-!
Shallow embedding of the MLP repository (src/cslm/dataset.py and
src/cslm/model.py): a dataset adapter that tokenizes sentences and one-hot
encodes sentiment labels, and a Lightning training module wrapping a
pretrained sequence-classification model.  Machine floats are modelled as
rationals; tensors as (nested) lists; Python exceptions as an `Except` error
type.  External library calls (pandas `iloc`, torch `one_hot`, the hub
tokenizer, torchmetrics `Accuracy`, the transformers scheduler factory) are
modelled from their documented behaviour, since they are not part of this
repository.
-/

namespace MLP

/-- Immutable hyperparameter record handed to both components
(`hparams` in dataset.py, `config` in model.py). -/
structure HParams where
  upstream_model : String
  num_classes : Nat
  lr : ℚ
  weight_decay : ℚ
  epochs : Nat
  freeze : String

/-- One row of the tabular source file: column 0 holds the sentence,
column 1 the label string. -/
structure Row where
  sentence : String
  label : String
deriving DecidableEq

/-- Python exceptions surfaced by the dataset adapter. -/
inductive PyError where
  | indexError : PyError
  | keyError : String → PyError
  | runtimeError : PyError
deriving DecidableEq

/-- Model of pandas integer-location row access `df.iloc[idx, _]` with an
integer indexer: a negative index counts from the end of the frame, and an
index outside `[-len, len)` raises `IndexError`. -/
def iloc (data : List Row) (idx : Int) : Except PyError Row :=
  let n : Int := if idx < 0 then (data.length : Int) + idx else idx
  if 0 ≤ n then
    match data[n.toNat]? with
    | some r => Except.ok r
    | none => Except.error PyError.indexError
  else Except.error PyError.indexError

/-- The fixed label vocabulary `self.labels2num` built in
`CSLMDataset.__init__`. -/
def labels2num : List (String × Nat) :=
  [("positive", 0), ("negative", 1), ("neutral", 2)]

/-- Python dict subscript `self.labels2num[s]`: raises `KeyError s` when the
key is absent. -/
def labelLookup (s : String) : Except PyError Nat :=
  match labels2num.lookup s with
  | some n => Except.ok n
  | none => Except.error (PyError.keyError s)

/-- Model of `torch.nn.functional.one_hot(torch.tensor(n), c).float()`: a
length-`c` float vector with entry 1.0 at position `n` and 0.0 elsewhere;
torch raises a `RuntimeError` when `n ≥ c`. -/
def one_hot (n : Nat) (c : Nat) : Except PyError (List ℚ) :=
  if n < c then
    Except.ok ((List.range c).map (fun i => if i = n then (1 : ℚ) else 0))
  else Except.error PyError.runtimeError

/-- Modelled from the spec: the external hub tokenizer's
`encode_plus(sentence, max_length, padding='max_length', truncation=True,
add_special_tokens=True, return_attention_mask=True)` call — the tokenizer
itself is resolved from the model hub and is absent from src/.  `tok` gives
the natural token-id sequence of a sentence (special tokens included); the
ids are truncated to `maxLength` and padded with id 0, and the attention
mask marks real tokens with 1 and padding with 0.  Returns
(input_ids, attention_mask), both already flattened to one dimension. -/
def encode_plus (tok : String → List Nat) (sentence : String) (maxLength : Nat) :
    List Nat × List Nat :=
  let kept := (tok sentence).take maxLength
  (kept ++ List.replicate (maxLength - kept.length) 0,
   List.replicate kept.length 1 ++ List.replicate (maxLength - kept.length) 0)

/-- The dataset adapter's state after construction: the parsed rows of the
CSV file, the hyperparameters, and the tokenizer resolved from the hub
(kept abstract as a function from sentences to raw token-id sequences). -/
structure CSLMDataset where
  data : List Row
  hparams : HParams
  tokenizer : String → List Nat

/-- Embedding of `CSLMDataset.__init__(CSVPath, hparams, is_train)`: stores the parsed
CSV rows, the hyperparameters and the hub tokenizer.  The `is_train`
argument is accepted but never read by the source. -/
def CSLMDataset.construct (csv : List Row) (hp : HParams)
    (tok : String → List Nat) (is_train : Bool) : CSLMDataset :=
  { data := csv, hparams := hp, tokenizer := tok }

/-- Embedding of `CSLMDataset.__len__`. -/
def CSLMDataset.len (ds : CSLMDataset) : Nat := ds.data.length

/-- The triple returned by `CSLMDataset.__getitem__`: flat token-id
sequence, flat attention mask, float one-hot label vector. -/
structure EncodedExample where
  input_ids : List Nat
  attention_mask : List Nat
  labels : List ℚ
deriving DecidableEq

/-- Embedding of `CSLMDataset.__getitem__(idx)`: read the row at `idx` (`IndexError` when
out of bounds), translate the label string through `labels2num` (`KeyError`
when unknown), one-hot encode it to `num_classes` floats, tokenize the
sentence with `max_length=128`, and return the encoded triple. -/
def CSLMDataset.getitem (ds : CSLMDataset) (idx : Int) :
    Except PyError EncodedExample :=
  match iloc ds.data idx with
  | Except.error e => Except.error e
  | Except.ok row =>
    match labelLookup row.label with
    | Except.error e => Except.error e
    | Except.ok label_num =>
      match one_hot label_num ds.hparams.num_classes with
      | Except.error e => Except.error e
      | Except.ok target_label =>
        let enc := encode_plus ds.tokenizer row.sentence 128
        Except.ok { input_ids := enc.1, attention_mask := enc.2,
                    labels := target_label }

/-- Python substring test `needle in hay` on strings. -/
def strContains (hay needle : String) : Bool :=
  (List.range (hay.toList.length + 1)).any
    (fun i => (hay.toList.drop i).take needle.toList.length == needle.toList)

/-- A model parameter as the training module sees it: an opaque tensor value
(abstracted to a rational tag) together with its `requires_grad` flag. -/
structure Param where
  value : ℚ
  requires_grad : Bool
deriving DecidableEq

/-- Embedding of the `LightningModel.__init__` freezing step: when `config.freeze == 'true'`,
iterate over `model.named_parameters()` and set `requires_grad = False` on
every parameter whose name does not contain `'classifier'`; all other
parameters are left untouched. -/
def applyFreeze (config : HParams) (params : List (String × Param)) :
    List (String × Param) :=
  if config.freeze = "true" then
    params.map (fun np =>
      if strContains np.1 "classifier" then np
      else (np.1, { np.2 with requires_grad := false }))
  else params

/-- torchmetrics task selection in `LightningModel.__init__`:
`'binary'` when `num_classes == 2`, else `'multiclass'`. -/
def accuracyTask (config : HParams) : String :=
  if config.num_classes = 2 then "binary" else "multiclass"

/-- Index of the first maximal entry of a row, as `torch.argmax` along the
class dimension (0 on an empty row). -/
def argmaxAux : List ℚ → Nat → Nat → ℚ → Nat
  | [], _, best, _ => best
  | x :: xs, i, best, bestv =>
    if bestv < x then argmaxAux xs (i + 1) i x
    else argmaxAux xs (i + 1) best bestv

/-- Model of `torch.argmax` over a single row of scores. -/
def argmax : List ℚ → Nat
  | [] => 0
  | x :: xs => argmaxAux xs 1 0 x

/-- Model of the torchmetrics `Accuracy` forward call on a batch: float
predictions of shape (N, C) are argmax-reduced along the class dimension
and compared with the integer targets; the returned batch value is the
fraction of matches. -/
def batchAccuracy (preds : List (List ℚ)) (targets : List Nat) : ℚ :=
  ((preds.zip targets).countP (fun pt => argmax pt.1 == pt.2) : ℚ) /
    (preds.length : ℚ)

/-- Model of `logits.view(-1, num_classes)`: flatten and re-chunk into rows of
`num_classes` entries. -/
def view2d (logits : List (List ℚ)) (numClasses : Nat) : List (List ℚ) :=
  logits.flatten.toChunks numClasses

/-- The training module's state as the step functions read it: the class
count from the config, the wrapped pretrained model's forward pass (opaque,
returning raw unnormalized scores), and the `CrossEntropyLoss` criterion
(opaque transcendental function of predictions and float targets). -/
structure ModelState where
  num_classes : Nat
  forward : List (List Nat) → List (List Nat) → List (List ℚ)
  loss_fn : List (List ℚ) → List (List ℚ) → ℚ

/-- One batch fed to a step function: parallel token ids, attention masks
and one-hot label rows. -/
structure Batch where
  input_ids : List (List Nat)
  attention_mask : List (List Nat)
  labels : List (List ℚ)

/-- Embedding of `LightningModel.training_step`: read the batch fields, run the forward
pass, reshape the logits to (batch, num_classes), compute the (diagnostic,
otherwise unused) softmax probabilities, the accuracy against the
argmax-reduced one-hot labels, and the cross-entropy loss, and return the
dict keyed `loss` / `acc`. -/
def training_step (m : ModelState) (batch : Batch) : List (String × ℚ) :=
  let input_ids := batch.input_ids
  let labels := batch.labels
  let attention_mask := batch.attention_mask
  let logits := m.forward input_ids attention_mask
  let preds := view2d logits m.num_classes
  let acc := batchAccuracy preds (labels.map argmax)
  let loss := m.loss_fn preds labels
  [("loss", loss), ("acc", acc)]

/-- Embedding of `LightningModel.validation_step`: the same computation as the training
step, translated from its own (duplicated) source body; the result dict is
keyed `val_loss` / `val_acc`. -/
def validation_step (m : ModelState) (batch : Batch) : List (String × ℚ) :=
  let input_ids := batch.input_ids
  let attention_mask := batch.attention_mask
  let logits := m.forward input_ids attention_mask
  let labels := batch.labels
  let preds := view2d logits m.num_classes
  let acc := batchAccuracy preds (labels.map argmax)
  let loss := m.loss_fn preds labels
  [("val_loss", loss), ("val_acc", acc)]

/-- Embedding of `LightningModel.test_step`: the same computation again, translated from
its own (duplicated) source body; the result dict is keyed
`test_loss` / `test_acc`. -/
def test_step (m : ModelState) (batch : Batch) : List (String × ℚ) :=
  let input_ids := batch.input_ids
  let attention_mask := batch.attention_mask
  let logits := m.forward input_ids attention_mask
  let labels := batch.labels
  let preds := view2d logits m.num_classes
  let acc := batchAccuracy preds (labels.map argmax)
  let loss := m.loss_fn preds labels
  [("test_loss", loss), ("test_acc", acc)]

/-- One per-batch step result as consumed by the epoch-end hooks. -/
structure StepResult where
  loss : ℚ
  acc : ℚ
deriving DecidableEq

/-- Model of `torch.tensor(xs).mean()` on a nonempty list of scalars. -/
def tensorMean (xs : List ℚ) : ℚ := xs.sum / (xs.length : ℚ)

/-- Embedding of `LightningModel.training_epoch_end`: log the mean per-batch loss and
accuracy under `train/loss` and `train/acc`, in that order. -/
def training_epoch_end (outputs : List StepResult) : List (String × ℚ) :=
  [("train/loss", tensorMean (outputs.map StepResult.loss)),
   ("train/acc", tensorMean (outputs.map StepResult.acc))]

/-- Embedding of `LightningModel.validation_epoch_end`: log the mean per-batch loss and
accuracy under `val/loss` and `val/acc`. -/
def validation_epoch_end (outputs : List StepResult) : List (String × ℚ) :=
  [("val/loss", tensorMean (outputs.map StepResult.loss)),
   ("val/acc", tensorMean (outputs.map StepResult.acc))]

/-- Embedding of `LightningModel.test_epoch_end`: log the mean per-batch loss and
accuracy under `test/loss` and `test/acc`. -/
def test_epoch_end (outputs : List StepResult) : List (String × ℚ) :=
  [("test/loss", tensorMean (outputs.map StepResult.loss)),
   ("test/acc", tensorMean (outputs.map StepResult.acc))]

/-- The `no_decay` marker list of `configure_optimizers`. -/
def no_decay : List String := ["bias", "LayerNorm.weight"]

/-- Whether a parameter name matches any `no_decay` marker:
`any(nd in n for nd in no_decay)`. -/
def matchesNoDecay (n : String) : Bool := no_decay.any (fun nd => strContains n nd)

/-- First optimizer parameter group: parameters whose name matches no
marker, receiving the configured weight decay.  (The source keeps only the
parameter values; the names are carried along here to state which parameter
went where.) -/
def decayGroupParams (params : List (String × Param)) : List (String × Param) :=
  params.filter (fun np => !matchesNoDecay np.1)

/-- Second optimizer parameter group: parameters whose name matches a
marker, receiving weight decay 0.0. -/
def noDecayGroupParams (params : List (String × Param)) : List (String × Param) :=
  params.filter (fun np => matchesNoDecay np.1)

/-- One entry of `optimizer_grouped_parameters`. -/
structure ParamGroup where
  params : List (String × Param)
  weight_decay : ℚ

/-- The optimizer record returned by `configure_optimizers`: an `AdamW`
instance over the two groups with the configured learning rate and
`eps = adam_epsilon = 1e-8`. -/
structure OptimizerConfig where
  kind : String
  groups : List ParamGroup
  lr : ℚ
  eps : ℚ

/-- The scheduler dict returned by `configure_optimizers`: a
`get_cosine_schedule_with_warmup` instance with `num_warmup_steps=5` and
`num_training_steps=config.epochs`, advanced with interval `step`. -/
structure SchedulerConfig where
  kind : String
  num_warmup_steps : Nat
  num_training_steps : Nat
  interval : String

/-- Embedding of `LightningModel.configure_optimizers`: partition the named parameters
into the decayed and undecayed groups, build the AdamW optimizer over them
with the configured lr and epsilon 1e-8, and pair it with a cosine schedule
warming up for 5 steps over `config.epochs` total steps, stepped per
optimization step. -/
def configure_optimizers (config : HParams) (params : List (String × Param)) :
    OptimizerConfig × SchedulerConfig :=
  ({ kind := "AdamW",
     groups := [{ params := decayGroupParams params,
                  weight_decay := config.weight_decay },
                { params := noDecayGroupParams params, weight_decay := 0 }],
     lr := config.lr,
     eps := 1 / 100000000 },
   { kind := "cosine_schedule_with_warmup",
     num_warmup_steps := 5,
     num_training_steps := config.epochs,
     interval := "step" })

/-- Model of the learning-rate multiplier produced by transformers'
`get_cosine_schedule_with_warmup` (external library): linear ramp
`step / max 1 warmup` during warmup, then
`max 0 ((1 + cos (pi * progress)) / 2)` where
`progress = (step - warmup) / max 1 (training - warmup)`.  The cosine of
`pi * x` is kept abstract as `cosPi` so the multiplier stays rational. -/
def cosineWarmupLambda (cosPi : ℚ → ℚ) (warmup training step : Nat) : ℚ :=
  if step < warmup then (step : ℚ) / max 1 (warmup : ℚ)
  else
    max 0 ((1 + cosPi (((step : ℚ) - (warmup : ℚ)) /
      max 1 ((training : ℚ) - (warmup : ℚ)))) / 2)

/-! Concrete instances used to evaluate the definitions on closed inputs. -/

/-- A concrete hyperparameter record matching the observed instance
(three sentiment classes). -/
def sampleHP : HParams :=
  { upstream_model := "bert-base-uncased", num_classes := 3, lr := 1 / 1000,
    weight_decay := 1 / 100, epochs := 30, freeze := "false" }

/-- The same configuration with the freeze flag set to the literal the
source tests for. -/
def freezeHP : HParams := { sampleHP with freeze := "true" }

/-- A concrete stand-in for the hub tokenizer: a deterministic raw token-id
sequence per sentence (two special tokens around one id per character). -/
def sampleTok (s : String) : List Nat := List.range (s.length + 2)

/-- A small concrete CSV with well-formed labels. -/
def sampleRows : List Row := [⟨"good day", "positive"⟩, ⟨"bad", "negative"⟩]

/-- A one-row CSV whose label is outside the vocabulary. -/
def badRows : List Row := [⟨"meh", "mixed"⟩]

/-- A concrete dataset adapter over `sampleRows`. -/
def sampleDS : CSLMDataset := CSLMDataset.construct sampleRows sampleHP sampleTok true

/-- A concrete dataset adapter over `badRows`. -/
def badDS : CSLMDataset := CSLMDataset.construct badRows sampleHP sampleTok true

/-- A concrete named-parameter list in the shape
`AutoModelForSequenceClassification` exposes. -/
def sampleParams : List (String × Param) :=
  [("bert.embeddings.word_embeddings.weight", ⟨1, true⟩),
   ("bert.encoder.layer.0.attention.output.LayerNorm.weight", ⟨2, true⟩),
   ("bert.encoder.layer.0.attention.self.query.bias", ⟨3, true⟩),
   ("classifier.weight", ⟨4, true⟩),
   ("classifier.bias", ⟨5, true⟩)]

/-- The default pair used to read entries out of a named-parameter list. -/
def dfltNP : String × Param := ("", ⟨0, true⟩)

/-- Per-batch results with losses 0.2, 0.4, 0.6 (the spec's worked
example) and accuracies 1/2, 1/2, 1. -/
def sampleOutputs : List StepResult :=
  [⟨1 / 5, 1 / 2⟩, ⟨2 / 5, 1 / 2⟩, ⟨3 / 5, 1⟩]

/-- A model state whose forward pass returns the spec's example raw scores
[[2,1,0],[0,1,2]] for any input, with three classes and an opaque loss
fixed at 0. -/
def exampleModel : ModelState :=
  { num_classes := 3,
    forward := fun _ _ => [[2, 1, 0], [0, 1, 2]],
    loss_fn := fun _ _ => 0 }

/-- A two-example batch carrying the spec's example one-hot labels
[[1,0,0],[0,0,1]]. -/
def exampleBatch : Batch :=
  { input_ids := [[1], [2]], attention_mask := [[1], [1]],
    labels := [[1, 0, 0], [0, 0, 1]] }

/-! Helper lemmas. -/

/-- Lemma: `iloc` at a nonnegative in-range index returns the row stored there. -/
theorem iloc_of_nonneg (data : List Row) (idx : Int) (r : Row)
    (h0 : 0 ≤ idx) (hr : data[idx.toNat]? = some r) :
    iloc data idx = Except.ok r := by
  unfold iloc
  have hneg : ¬ idx < 0 := by omega
  simp only [hneg, if_false, h0, if_true, hr]

/-- A one-hot indicator list over `range c` sums to 1 when the hot index is
in range. -/
theorem indicator_sum (c n : Nat) (h : n < c) :
    ((List.range c).map (fun i => if i = n then (1 : ℚ) else 0)).sum = 1 := by
  induction c with
  | zero => omega
  | succ c ih =>
    rw [List.range_succ, List.map_append, List.sum_append]
    rcases Nat.lt_succ_iff_lt_or_eq.mp h with h' | h'
    · have hne : c ≠ n := by omega
      rw [ih h']
      simp [hne]
    · subst h'
      have hz : ((List.range n).map (fun i => if i = n then (1 : ℚ) else 0)).sum = 0 := by
        apply List.sum_eq_zero
        intro x hx
        obtain ⟨i, hi, hix⟩ := List.mem_map.mp hx
        have hin : i ≠ n := by
          have := List.mem_range.mp hi
          omega
        simp only [if_neg hin] at hix
        exact hix.symm
      rw [hz]
      simp

/-- Successful `one_hot` yields the indicator list over `range c`. -/
theorem one_hot_ok (n c : Nat) (h : n < c) :
    one_hot n c =
      Except.ok ((List.range c).map (fun i => if i = n then (1 : ℚ) else 0)) := by
  simp [one_hot, h]

/-- Lemma: `encode_plus` always returns sequences of exactly the requested
length. -/
theorem encode_plus_length (tok : String → List Nat) (s : String) (L : Nat) :
    (encode_plus tok s L).1.length = L ∧ (encode_plus tok s L).2.length = L := by
  unfold encode_plus
  have hle : ((tok s).take L).length ≤ L := by
    rw [List.length_take]
    omega
  constructor <;> simp <;> omega

/-- Lemma: `getitem` on a row with a recognised label that fits the class count
returns the fully evaluated encoded example. -/
theorem getitem_ok (ds : CSLMDataset) (idx : Int) (r : Row) (k : Nat)
    (hrow : iloc ds.data idx = Except.ok r)
    (hlabel : labelLookup r.label = Except.ok k)
    (hk : k < ds.hparams.num_classes) :
    ds.getitem idx = Except.ok
      { input_ids := (encode_plus ds.tokenizer r.sentence 128).1,
        attention_mask := (encode_plus ds.tokenizer r.sentence 128).2,
        labels := (List.range ds.hparams.num_classes).map
          (fun i => if i = k then (1 : ℚ) else 0) } := by
  unfold CSLMDataset.getitem
  rw [hrow]
  simp only [hlabel, one_hot_ok k _ hk]

/-! Claim theorems. -/

/-- Claim C1: for every valid index i in [0, Size()), GetItem(i) returns a
token-id sequence and an attention mask each of exactly the configured
maximum length (128), and a one-hot label vector of exactly num_classes
float entries whose sum is 1.0 — the entry at the label's class index is
1.0 and every other entry is 0.0.  (As the spec's data-model invariant
requires, the row's label must be in the vocabulary and its class index
must fit the configured class count; otherwise GetItem raises instead.) -/
theorem getitem_shapes (ds : CSLMDataset) (idx : Int)
    (h0 : 0 ≤ idx) (h1 : idx < (ds.len : Int))
    (r : Row) (hr : ds.data[idx.toNat]? = some r)
    (k : Nat) (hlabel : labelLookup r.label = Except.ok k)
    (hk : k < ds.hparams.num_classes) :
    ∃ ex : EncodedExample, ds.getitem idx = Except.ok ex ∧
      ex.input_ids.length = 128 ∧
      ex.attention_mask.length = 128 ∧
      ex.labels.length = ds.hparams.num_classes ∧
      ex.labels.sum = 1 ∧
      ex.labels[k]? = some 1 ∧
      ∀ j, j < ds.hparams.num_classes → j ≠ k → ex.labels[j]? = some 0 := by
  have hrow : iloc ds.data idx = Except.ok r := iloc_of_nonneg ds.data idx r h0 hr
  refine ⟨_, getitem_ok ds idx r k hrow hlabel hk, ?_, ?_, ?_, ?_, ?_, ?_⟩
  · exact (encode_plus_length ds.tokenizer r.sentence 128).1
  · exact (encode_plus_length ds.tokenizer r.sentence 128).2
  · simp
  · exact indicator_sum _ k hk
  · rw [List.getElem?_map, List.getElem?_range hk]
    simp
  · intro j hj hjk
    rw [List.getElem?_map, List.getElem?_range hj]
    simp [hjk]

/-- Witness for C1 at a concrete dataset, index 0. -/
theorem getitem_shapes_witness :
    (0 : Int) ≤ 0 ∧ (0 : Int) < (sampleDS.len : Int) ∧
    sampleDS.data[(0 : Int).toNat]? = some ⟨"good day", "positive"⟩ ∧
    labelLookup "positive" = Except.ok 0 ∧
    0 < sampleDS.hparams.num_classes ∧
    (∃ ex : EncodedExample, sampleDS.getitem 0 = Except.ok ex ∧
      ex.input_ids.length = 128 ∧
      ex.attention_mask.length = 128 ∧
      ex.labels.length = sampleDS.hparams.num_classes ∧
      ex.labels.sum = 1 ∧
      ex.labels[0]? = some 1 ∧
      ∀ j, j < sampleDS.hparams.num_classes → j ≠ 0 → ex.labels[j]? = some 0) :=
  ⟨by decide, by decide, by decide, rfl, by decide,
   getitem_shapes sampleDS 0 (by decide) (by decide) ⟨"good day", "positive"⟩
     (by decide) 0 rfl (by decide)⟩

/-- Claim C2: a row whose label string is not "positive", "negative" or
"neutral" makes GetItem on that row's index raise KeyError carrying that
label, with no local recovery or fallback value. -/
theorem getitem_unknown_label (ds : CSLMDataset) (idx : Int) (r : Row)
    (hrow : iloc ds.data idx = Except.ok r)
    (h1 : r.label ≠ "positive") (h2 : r.label ≠ "negative")
    (h3 : r.label ≠ "neutral") :
    ds.getitem idx = Except.error (PyError.keyError r.label) := by
  have b1 : (r.label == "positive") = false := beq_eq_false_iff_ne.mpr h1
  have b2 : (r.label == "negative") = false := beq_eq_false_iff_ne.mpr h2
  have b3 : (r.label == "neutral") = false := beq_eq_false_iff_ne.mpr h3
  have hl : labelLookup r.label = Except.error (PyError.keyError r.label) := by
    unfold labelLookup labels2num
    simp [List.lookup, b1, b2, b3]
  unfold CSLMDataset.getitem
  rw [hrow]
  simp only [hl]

/-- Witness for C2 at a concrete dataset whose single row has label
"mixed". -/
theorem getitem_unknown_label_witness :
    iloc badDS.data 0 = Except.ok ⟨"meh", "mixed"⟩ ∧
    ("mixed" : String) ≠ "positive" ∧ ("mixed" : String) ≠ "negative" ∧
    ("mixed" : String) ≠ "neutral" ∧
    badDS.getitem 0 = Except.error (PyError.keyError "mixed") :=
  ⟨rfl, by decide, by decide, by decide,
   getitem_unknown_label badDS 0 ⟨"meh", "mixed"⟩ rfl (by decide) (by decide)
     (by decide)⟩

/-- Counterexample to C9 as stated: index -1 lies outside [0, Size()), yet
GetItem(-1) on a two-row dataset succeeds (pandas `iloc` resolves negative
indices from the end) instead of raising IndexError. -/
theorem getitem_neg_index_counterexample :
    ((-1 : Int) < 0 ∨ (sampleDS.len : Int) ≤ -1) ∧
    (sampleDS.getitem (-1)).isOk = true :=
  ⟨Or.inl (by decide), by rfl⟩

/-- Claim C9 (amended): GetItem(idx) fails with IndexError exactly when idx
is outside pandas' admissible range [-Size(), Size()): every idx with
idx ≥ Size() or idx < -Size() raises IndexError, while a negative idx in
[-Size(), 0) is resolved Python-style to row Size() + idx. -/
theorem getitem_index_error (ds : CSLMDataset) (idx : Int) :
    (((ds.len : Int) ≤ idx ∨ idx < -(ds.len : Int)) →
      ds.getitem idx = Except.error PyError.indexError) ∧
    ((-(ds.len : Int) ≤ idx ∧ idx < 0) →
      ds.getitem idx = ds.getitem ((ds.len : Int) + idx)) := by
  constructor
  · intro h
    have hiloc : iloc ds.data idx = Except.error PyError.indexError := by
      unfold iloc
      rcases h with h | h
      · have hlen : (ds.len : Int) = (ds.data.length : Int) := rfl
        have hneg : ¬ idx < 0 := by omega
        have hge : ds.data.length ≤ idx.toNat := by omega
        simp only [hneg, if_false]
        have h0 : (0 : Int) ≤ idx := by omega
        simp only [h0, if_true, List.getElem?_eq_none hge]
      · have hlen : (ds.len : Int) = (ds.data.length : Int) := rfl
        have hneg : idx < 0 := by omega
        have hn : ¬ (0 : Int) ≤ (ds.data.length : Int) + idx := by omega
        simp only [hneg, if_true, hn, if_false]
    unfold CSLMDataset.getitem
    rw [hiloc]
  · rintro ⟨hge, hlt⟩
    have hlen : (ds.len : Int) = (ds.data.length : Int) := rfl
    have hiloc : iloc ds.data idx = iloc ds.data ((ds.len : Int) + idx) := by
      unfold iloc
      have hneg2 : ¬ ((ds.data.length : Int) + idx < 0) := by omega
      simp only [hlt, if_true, hlen, hneg2, if_false]
    unfold CSLMDataset.getitem
    rw [hiloc]

/-- Witness for the amended C9: on the two-row dataset, index 5 raises
IndexError and index -1 resolves to index 1. -/
theorem getitem_index_error_witness :
    ((sampleDS.len : Int) ≤ 5 ∨ (5 : Int) < -(sampleDS.len : Int)) ∧
    sampleDS.getitem 5 = Except.error PyError.indexError ∧
    (-(sampleDS.len : Int) ≤ -1 ∧ (-1 : Int) < 0) ∧
    sampleDS.getitem (-1) = sampleDS.getitem ((sampleDS.len : Int) + -1) :=
  ⟨Or.inl (by decide),
   (getitem_index_error sampleDS 5).1 (Or.inl (by decide)),
   ⟨by decide, by decide⟩,
   (getitem_index_error sampleDS (-1)).2 ⟨by decide, by decide⟩⟩

/-- Claim C10: the dataset adapter's behaviour is independent of the
is_train constructor argument — two adapters built from the same rows,
hyperparameters and tokenizer but different is_train values are equal,
report the same Size(), and return the same encoded example at every
index. -/
theorem construct_independent_of_is_train (csv : List Row) (hp : HParams)
    (tok : String → List Nat) (b1 b2 : Bool) :
    CSLMDataset.construct csv hp tok b1 = CSLMDataset.construct csv hp tok b2 ∧
    (CSLMDataset.construct csv hp tok b1).len =
      (CSLMDataset.construct csv hp tok b2).len ∧
    ∀ idx : Int, (CSLMDataset.construct csv hp tok b1).getitem idx =
      (CSLMDataset.construct csv hp tok b2).getitem idx :=
  ⟨rfl, rfl, fun _ => rfl⟩

/-- Lemma: `matchesNoDecay` unfolded to the two markers of `no_decay`. -/
theorem matchesNoDecay_eq (n : String) :
    matchesNoDecay n = (strContains n "bias" || strContains n "LayerNorm.weight") := by
  simp [matchesNoDecay, no_decay]

/-- Claim C3: configure_optimizers splits the named parameters into exactly
two disjoint, exhaustive groups — every parameter whose name contains
"bias" or "LayerNorm.weight" as a substring lands in the group with weight
decay 0.0, every other parameter in the group carrying the configured
weight-decay coefficient — for any parameter-name set. -/
theorem configure_optimizers_partition (config : HParams)
    (params : List (String × Param)) :
    (configure_optimizers config params).1.groups =
      [{ params := decayGroupParams params,
         weight_decay := config.weight_decay },
       { params := noDecayGroupParams params, weight_decay := 0 }] ∧
    (∀ np ∈ params,
      (strContains np.1 "bias" || strContains np.1 "LayerNorm.weight") = true →
        np ∈ noDecayGroupParams params ∧ np ∉ decayGroupParams params) ∧
    (∀ np ∈ params,
      (strContains np.1 "bias" || strContains np.1 "LayerNorm.weight") = false →
        np ∈ decayGroupParams params ∧ np ∉ noDecayGroupParams params) ∧
    (∀ np : String × Param,
      (np ∈ decayGroupParams params ∨ np ∈ noDecayGroupParams params) ↔
        np ∈ params) ∧
    (∀ np : String × Param,
      ¬ (np ∈ decayGroupParams params ∧ np ∈ noDecayGroupParams params)) := by
  refine ⟨rfl, ?_, ?_, ?_, ?_⟩
  · intro np hnp h
    refine ⟨List.mem_filter.mpr ⟨hnp, by rw [matchesNoDecay_eq, h]⟩, ?_⟩
    intro hmem
    have hpred := (List.mem_filter.mp hmem).2
    rw [matchesNoDecay_eq, h] at hpred
    exact Bool.noConfusion hpred
  · intro np hnp h
    refine ⟨List.mem_filter.mpr ⟨hnp, by rw [matchesNoDecay_eq, h]; rfl⟩, ?_⟩
    intro hmem
    have hpred := (List.mem_filter.mp hmem).2
    rw [matchesNoDecay_eq, h] at hpred
    exact Bool.noConfusion hpred
  · intro np
    constructor
    · rintro (h | h)
      · exact (List.mem_filter.mp h).1
      · exact (List.mem_filter.mp h).1
    · intro hnp
      cases hm : matchesNoDecay np.1 with
      | true => exact Or.inr (List.mem_filter.mpr ⟨hnp, hm⟩)
      | false => exact Or.inl (List.mem_filter.mpr ⟨hnp, by rw [hm]; rfl⟩)
  · rintro np ⟨h1, h2⟩
    have hp1 := (List.mem_filter.mp h1).2
    have hp2 := (List.mem_filter.mp h2).2
    rw [hp2] at hp1
    exact Bool.noConfusion hp1

/-- Witness for C3 on a concrete five-parameter list. -/
theorem configure_optimizers_partition_witness :
    ("classifier.bias", (⟨5, true⟩ : Param)) ∈ sampleParams ∧
    (strContains "classifier.bias" "bias" ||
      strContains "classifier.bias" "LayerNorm.weight") = true ∧
    ("classifier.bias", (⟨5, true⟩ : Param)) ∈ noDecayGroupParams sampleParams ∧
    ("classifier.bias", (⟨5, true⟩ : Param)) ∉ decayGroupParams sampleParams ∧
    ("classifier.weight", (⟨4, true⟩ : Param)) ∈ decayGroupParams sampleParams :=
  ⟨by decide, by decide,
   ((configure_optimizers_partition sampleHP sampleParams).2.1 _ (by decide)
     (by decide)).1,
   ((configure_optimizers_partition sampleHP sampleParams).2.1 _ (by decide)
     (by decide)).2,
   ((configure_optimizers_partition sampleHP sampleParams).2.2.1 _ (by decide)
     (by decide)).1⟩

/-- Claim C4: with the freeze option enabled, construction disables
gradient updates on every parameter whose name does not contain
"classifier" and leaves every parameter whose name does contain
"classifier" untouched (hence still updatable), name by name and position
by position. -/
theorem applyFreeze_spec (config : HParams) (params : List (String × Param))
    (hf : config.freeze = "true") :
    (applyFreeze config params).length = params.length ∧
    ∀ i, i < params.length →
      ∃ n p q, params[i]? = some (n, p) ∧
        (applyFreeze config params)[i]? = some (n, q) ∧
        (strContains n "classifier" = false → q.requires_grad = false) ∧
        (strContains n "classifier" = true → q = p) := by
  have hdef : applyFreeze config params = params.map (fun np =>
      if strContains np.1 "classifier" then np
      else (np.1, { np.2 with requires_grad := false })) := by
    unfold applyFreeze
    rw [if_pos hf]
  constructor
  · rw [hdef, List.length_map]
  · intro i hi
    obtain ⟨⟨n, p⟩, hnp⟩ : ∃ np, params[i]? = some np :=
      ⟨params[i], List.getElem?_eq_getElem hi⟩
    by_cases hc : strContains n "classifier" = true
    · refine ⟨n, p, p, hnp, ?_, ?_, fun _ => rfl⟩
      · rw [hdef, List.getElem?_map, hnp, Option.map_some']
        simp only [if_pos hc]
      · intro h
        rw [h] at hc
        exact Bool.noConfusion hc
    · have hc' : strContains n "classifier" = false := by
        simpa using hc
      refine ⟨n, p, ⟨p.value, false⟩, hnp, ?_, fun _ => rfl, ?_⟩
      · rw [hdef, List.getElem?_map, hnp, Option.map_some']
        simp only [if_neg hc]
      · intro h
        rw [h] at hc'
        exact Bool.noConfusion hc'

/-- Witness for C4 on a concrete parameter list under the frozen
configuration. -/
theorem applyFreeze_spec_witness :
    freezeHP.freeze = "true" ∧
    (applyFreeze freezeHP sampleParams).length = sampleParams.length ∧
    (∃ n p q, sampleParams[0]? = some (n, p) ∧
      (applyFreeze freezeHP sampleParams)[0]? = some (n, q) ∧
      (strContains n "classifier" = false → q.requires_grad = false) ∧
      (strContains n "classifier" = true → q = p)) :=
  ⟨rfl, (applyFreeze_spec freezeHP sampleParams rfl).1,
   (applyFreeze_spec freezeHP sampleParams rfl).2 0 (by decide)⟩

/-- Claim C5: for each phase, the epoch-end hook emits exactly the
arithmetic mean (sum divided by count) of the per-batch losses and of the
per-batch accuracies, independently, under the namespaced labels
train/loss, train/acc, val/loss, val/acc, test/loss and test/acc. -/
theorem epoch_end_mean (outputs : List StepResult) (h : outputs ≠ []) :
    training_epoch_end outputs =
      [("train/loss", (outputs.map StepResult.loss).sum / (outputs.length : ℚ)),
       ("train/acc", (outputs.map StepResult.acc).sum / (outputs.length : ℚ))] ∧
    validation_epoch_end outputs =
      [("val/loss", (outputs.map StepResult.loss).sum / (outputs.length : ℚ)),
       ("val/acc", (outputs.map StepResult.acc).sum / (outputs.length : ℚ))] ∧
    test_epoch_end outputs =
      [("test/loss", (outputs.map StepResult.loss).sum / (outputs.length : ℚ)),
       ("test/acc", (outputs.map StepResult.acc).sum / (outputs.length : ℚ))] := by
  refine ⟨?_, ?_, ?_⟩ <;>
    simp [training_epoch_end, validation_epoch_end, test_epoch_end, tensorMean]

/-- Witness for C5 at the spec's worked example: per-batch losses
0.2, 0.4, 0.6 yield the reported epoch loss 0.4. -/
theorem epoch_end_mean_witness :
    sampleOutputs ≠ [] ∧
    training_epoch_end sampleOutputs =
      [("train/loss", 2 / 5), ("train/acc", 2 / 3)] := by
  refine ⟨by decide, ?_⟩
  rw [(epoch_end_mean sampleOutputs (by decide)).1]
  norm_num [sampleOutputs]

/-- Claim C6: the per-step accuracy is the fraction of rows whose
argmax over the raw (non-softmaxed) scores equals the argmax of the
one-hot label row; at the spec's example — raw scores [[2,1,0],[0,1,2]],
one-hot labels [[1,0,0],[0,0,1]], num_classes 3 — the predicted classes
are [0,2], the true classes are [0,2], and the batch accuracy is 1.0. -/
theorem training_step_accuracy (m : ModelState) (batch : Batch) :
    (training_step m batch =
      [("loss", m.loss_fn
          (view2d (m.forward batch.input_ids batch.attention_mask)
            m.num_classes) batch.labels),
       ("acc", batchAccuracy
          (view2d (m.forward batch.input_ids batch.attention_mask)
            m.num_classes) (batch.labels.map argmax))]) ∧
    ((view2d (exampleModel.forward exampleBatch.input_ids
        exampleBatch.attention_mask) exampleModel.num_classes).map argmax
      = [0, 2]) ∧
    (exampleBatch.labels.map argmax = [0, 2]) ∧
    (batchAccuracy
      (view2d (exampleModel.forward exampleBatch.input_ids
        exampleBatch.attention_mask) exampleModel.num_classes)
      (exampleBatch.labels.map argmax) = 1) ∧
    (training_step exampleModel exampleBatch = [("loss", 0), ("acc", 1)]) := by
  have hacc : batchAccuracy
      (view2d (exampleModel.forward exampleBatch.input_ids
        exampleBatch.attention_mask) exampleModel.num_classes)
      (exampleBatch.labels.map argmax) = ((2 : ℕ) : ℚ) / ((2 : ℕ) : ℚ) := rfl
  have hstep : training_step exampleModel exampleBatch =
      [("loss", 0), ("acc", ((2 : ℕ) : ℚ) / ((2 : ℕ) : ℚ))] := rfl
  refine ⟨rfl, by decide, by decide, ?_, ?_⟩
  · rw [hacc]
    norm_num
  · rw [hstep]
    norm_num

/-- Claim C7: configure_optimizers returns an AdamW optimizer over the two
groups with the configured learning rate and epsilon exactly 1e-8,
together with a cosine schedule that warms up linearly
(multiplier step/5) for exactly 5 steps, then decays along the cosine
curve over a total step count equal to the configured number of epochs,
declared with per-step update granularity. -/
theorem configure_optimizers_schedule (config : HParams)
    (params : List (String × Param)) :
    (configure_optimizers config params).1.kind = "AdamW" ∧
    (configure_optimizers config params).1.lr = config.lr ∧
    (configure_optimizers config params).1.eps = 1 / 100000000 ∧
    (configure_optimizers config params).1.groups.length = 2 ∧
    (configure_optimizers config params).2.kind =
      "cosine_schedule_with_warmup" ∧
    (configure_optimizers config params).2.num_warmup_steps = 5 ∧
    (configure_optimizers config params).2.num_training_steps =
      config.epochs ∧
    (configure_optimizers config params).2.interval = "step" ∧
    (∀ cosPi : ℚ → ℚ, ∀ step : Nat, step < 5 →
      cosineWarmupLambda cosPi 5 config.epochs step = (step : ℚ) / 5) ∧
    (∀ cosPi : ℚ → ℚ, ∀ step : Nat, 5 ≤ step →
      cosineWarmupLambda cosPi 5 config.epochs step =
        max 0 ((1 + cosPi (((step : ℚ) - 5) /
          max 1 ((config.epochs : ℚ) - 5))) / 2)) := by
  refine ⟨rfl, rfl, rfl, rfl, rfl, rfl, rfl, rfl, ?_, ?_⟩
  · intro cosPi step hstep
    unfold cosineWarmupLambda
    rw [if_pos hstep]
    norm_num
  · intro cosPi step hstep
    unfold cosineWarmupLambda
    rw [if_neg (by omega)]
    norm_num

/-- Witness for C7 on the concrete configuration (30 epochs): the schedule
descriptor carries warmup 5 / total 30 / interval step, and the warmup
multiplier at step 3 is 3/5. -/
theorem configure_optimizers_schedule_witness :
    (configure_optimizers sampleHP sampleParams).2.num_warmup_steps = 5 ∧
    (configure_optimizers sampleHP sampleParams).2.num_training_steps = 30 ∧
    (configure_optimizers sampleHP sampleParams).2.interval = "step" ∧
    (configure_optimizers sampleHP sampleParams).1.eps = 1 / 100000000 ∧
    (3 : Nat) < 5 ∧
    cosineWarmupLambda (fun x => x) 5 sampleHP.epochs 3 = 3 / 5 := by
  obtain ⟨-, -, h3, -, -, h6, h7, h8, h9, -⟩ :=
    configure_optimizers_schedule sampleHP sampleParams
  refine ⟨h6, h7.trans rfl, h8, h3, by decide, ?_⟩
  rw [h9 (fun x => x) 3 (by decide)]
  norm_num

/-- Claim C8: the three per-phase step functions implement identical
logic — for the same model state and batch they return equal loss scalars
and equal accuracy scalars, differing only in the dictionary keys. -/
theorem phase_steps_equivalent (m : ModelState) (batch : Batch) :
    ∃ l a : ℚ,
      training_step m batch = [("loss", l), ("acc", a)] ∧
      validation_step m batch = [("val_loss", l), ("val_acc", a)] ∧
      test_step m batch = [("test_loss", l), ("test_acc", a)] :=
  ⟨_, _, rfl, rfl, rfl⟩

end MLP
